import Mathlib

/-!
Shallow embedding of the bioreactor core (`src/bioreactor.py`) of the
Cell-Culture simulator.  Physical quantities (the Python `quantities`
package) are embedded as real numbers in consistent SI-style base units,
matching the source's `.simplified` normalisation.  The `param` module is
not part of the source tree; its contents (species lists, step resolution,
physical constants, charge tables) are modelled from the spec as an
abstract `Params` record.
-/

namespace CellCulture

open Real

/-- Modelled from the spec: the `param` module imported by
`src/bioreactor.py` but absent from the source tree.  Per the spec it
provides the externally-defined species lists (`liquid_components`,
`gas_components`), per-species kLa ratios, the fixed step resolution
Δt (`q_res` = `param.resolution`), the broth viscosity (as the ratio to
1 Pa·s), ambient temperature, volumetric heat capacity, and the fixed
charge-classification tables. -/
structure Params where
  liquid_components : List String
  gas_components : List String
  kla_ratio : String → ℝ
  q_res : ℝ
  viscosity : ℝ
  environment_temperature : ℝ
  volumetric_heat_capacity : ℝ
  positively_charged : List String
  negatively_charged : List String

/-- The `solubility` dictionary (bioreactor.py lines 20-23): temperature
dependent solubility in mM/atm for the two dissolved-gas species it
defines; the dictionary has no other keys (the junk value 0 stands for
the absent keys, which the source never looks up without crashing). -/
noncomputable def solubility (name : String) (t : ℝ) : ℝ :=
  if name = "dO2" then 1.58 - t * 0.015
  else if name = "dCO2" then 48.39 - t * 0.61
  else 0

/-- Impeller parameters (class `agitator`, bioreactor.py lines 29-51). -/
structure Agitator where
  type : String
  number : ℝ
  diameter : ℝ
  width : ℝ
  power_number : ℝ
  ungassed_power_coeff : ℝ

/-- Constructor `agitator.__init__` (lines 32-48): looks up the power
number from the impeller type, raising `ValueError` (embedded as
`Except.error`) for an unrecognized type, then derives
`ungassed_power_coeff = power_number * 1000 kg/m^3 * diameter^5`. -/
noncomputable def Agitator.make (impeller_type : String) (number diameter width : ℝ) :
    Except String Agitator :=
  (if impeller_type = "rushton" then Except.ok (5.5 : ℝ)
   else if impeller_type = "marine" then Except.ok (2.2 : ℝ)
   else Except.error "impeller not recognized!").map fun power_number =>
    { type := impeller_type
      number := number
      diameter := diameter
      width := width
      power_number := power_number
      ungassed_power_coeff := power_number * 1000 * diameter ^ 5 }

/-- Method `agitator.ungassed_power` (lines 50-51). -/
noncomputable def Agitator.ungassed_power (a : Agitator) (RPS : ℝ) : ℝ :=
  RPS ^ 3 * a.ungassed_power_coeff

/-- An actuation command: the Python dict keyed by gas-component names,
`liquid_volume`, `RPS`, `gas_volume`, `heat`, and per-species feed
rates; embedded as a total map (the spec fixes the key set, and dict
equality is value equality on it). -/
def Actuation : Type := String → ℝ

/-- Cell state consumed by `step` (keys `total_cells`, `volume`,
`mass_transfer` of the `cells` dict). -/
structure Cells where
  total_cells : ℝ
  volume : ℝ
  mass_transfer : String → ℝ

/-- The environment snapshot returned by `step` (lines 162-174). -/
structure Env where
  shear : ℝ
  max_shear : ℝ
  volume : ℝ
  mOsm : ℝ
  pH : ℝ
  temperature : ℝ
  time : ℝ
  conc : String → ℝ

/-- Mutable state of class `bioreactor` (lines 54-90): geometry and the
per-step caches.  `old` is the last applied actuation (`self.old`,
initially the empty dict, embedded as `none`). -/
structure Bioreactor where
  volume : ℝ
  working_volume : ℝ
  agitator : Agitator
  CSA : ℝ
  diameter : ℝ
  current_time : ℝ
  old : Option Actuation
  pressure : ℝ
  mole : String → ℝ
  temperature : ℝ
  overall_heat_transfer_coeff : ℝ
  kla : ℝ
  gas_percentages : String → ℝ
  mean_shear : ℝ
  max_shear : ℝ

/-- Method `bioreactor.update_shear` (lines 93-103). -/
noncomputable def Bioreactor.update_shear (br : Bioreactor) (RPS : ℝ) : Bioreactor :=
  let ratio := (br.agitator.diameter / br.diameter) ^ (0.3 : ℝ)
  let mean := 4.2 * RPS * ratio * br.agitator.diameter / br.agitator.width
  { br with mean_shear := mean, max_shear := mean / 4.2 * 9.7 }

/-- The closure returned by `bioreactor.create_kla_function`
(lines 195-219): the geometry constants `diam_ratio`, `A`, `B`, `C`,
`froude_coeff`, `CSA` are precomputed from the captured state, then the
gassed-power correlation gives kLa (the returned number carries the unit
1/min in the source). -/
noncomputable def Bioreactor.kla_func (p : Params) (br : Bioreactor)
    (RPS gas_flow working_volume : ℝ) : ℝ :=
  let diam_ratio := br.agitator.diameter / br.diameter
  let A := 5.3 * Real.exp (-5.4 * diam_ratio)
  let B := 0.47 * diam_ratio ^ (1.3 : ℝ)
  let C := 0.64 - 1.1 * diam_ratio
  let froude_coeff := br.agitator.diameter / 9.81
  let CSA := Real.pi * br.diameter ^ 2 / 4
  let froude := froude_coeff * RPS ^ 2
  let aeration := gas_flow / (RPS * br.agitator.diameter ^ 3)
  let ungassed_power := br.agitator.ungassed_power RPS
  let lower_gassed_power := ungassed_power *
    (1 - (B - A * p.viscosity) * froude ^ (0.25 : ℝ) * Real.tanh (C * aeration))
  let upper_gassed_power := (br.agitator.number - 1) * ungassed_power *
    (1 - (A + B * froude) * aeration ^ (C + 0.04 * froude))
  let superficial_velocity := gas_flow / CSA
  1080 * ((lower_gassed_power + upper_gassed_power) / working_volume) ^ (0.39 : ℝ) *
    superficial_velocity ^ (0.79 : ℝ)

/-- Method `bioreactor.calc_gas_percentages` (lines 114-124): sums all
gas-component flows, maps each gas component `c` to the fraction at key
`d`+`c`, then folds air's O2 (21%) and CO2 (0.045%) content into `dO2`
and `dCO2`.  The source unconditionally reads the `dair`, `dO2`, `dCO2`
keys, so `air`, `O2`, `CO2` are necessarily gas components; division is
the real-field total operation here (the zero-total case is made
explicit in `calc_gas_percentages_checked`). -/
noncomputable def calc_gas_percentages (p : Params) (actuation : Actuation) :
    String → ℝ :=
  let total := (p.gas_components.map actuation).sum
  fun name =>
    (if name.take 1 = "d" ∧ name.drop 1 ∈ p.gas_components
      then actuation (name.drop 1) / total else 0) +
    (if name = "dO2" then actuation "air" / total * 0.21
     else if name = "dCO2" then actuation "air" / total * 0.00045
     else 0)

/-- Fallible version of `calc_gas_percentages` making the zero-total
division explicit: the source (lines 114-124) has no guard, so when the
summed flow is zero every fraction is computed as 0/0 — an invalid
(NaN-producing) float division, not a defined value.  `none` marks that
case. -/
noncomputable def calc_gas_percentages_checked (p : Params) (actuation : Actuation) :
    Option (String → ℝ) :=
  let total := (p.gas_components.map actuation).sum
  if total = 0 then none
  else some (calc_gas_percentages p actuation)

open scoped Classical in
/-- Method `bioreactor.check_and_update` (lines 105-112): advances
`current_time` by `param.resolution`, then recomputes the kLa,
gas-percentage and shear caches unless the actuation equals the stored
one and its `liquid_volume` is zero. -/
noncomputable def Bioreactor.check_and_update (p : Params) (br : Bioreactor)
    (actuation : Actuation) : Bioreactor :=
  let br1 : Bioreactor := { br with current_time := br.current_time + p.q_res }
  if br1.old = some actuation ∧ actuation "liquid_volume" = 0 then br1
  else
    let br2 : Bioreactor :=
      { br1 with
        old := some actuation
        kla := br1.kla_func p (actuation "RPS") (actuation "gas_volume") br1.working_volume
        gas_percentages := calc_gas_percentages p actuation }
    br2.update_shear (actuation "RPS")

/-- Method `bioreactor.total_moles` (lines 176-180): sums the molar
inventory over the fixed species set. -/
noncomputable def Bioreactor.total_moles (p : Params) (br : Bioreactor) : ℝ :=
  (p.liquid_components.map br.mole).sum

/-- Net ionic charge concentration (bioreactor.py lines 186-190):
`positive_charge - negative_charge`, each a sum of `moles/volume` (in M)
over the species of the inventory in the respective charge table. -/
noncomputable def netCharge (p : Params) (br : Bioreactor) : ℝ :=
  ((p.liquid_components.filter (fun s => s ∈ p.positively_charged)).map
      (fun s => br.mole s / br.working_volume)).sum -
  ((p.liquid_components.filter (fun s => s ∈ p.negatively_charged)).map
      (fun s => br.mole s / br.working_volume)).sum

/-- Argument of the square root in `bioreactor.pH` (lines 191-192). -/
noncomputable def pH_sqrt_arg (p : Params) (br : Bioreactor) : ℝ :=
  (netCharge p br / 2) ^ 2 + (10 : ℝ) ^ (-14 : ℤ) +
    (10 : ℝ) ^ (-6.36 : ℝ) * 1.0017 * br.mole "dCO2" / br.working_volume

/-- Argument of `log10` in `bioreactor.pH` (lines 191-192). -/
noncomputable def pH_log_arg (p : Params) (br : Bioreactor) : ℝ :=
  -(netCharge p br) / 2 + Real.sqrt (pH_sqrt_arg p br)

/-- Method `bioreactor.pH` (lines 182-193). -/
noncomputable def Bioreactor.pH_val (p : Params) (br : Bioreactor) : ℝ :=
  -Real.logb 10 (pH_log_arg p br)

/-- Method `bioreactor.step` (lines 126-174), the per-step state
transition: cache refresh via `check_and_update`, the two-regime molar
balance over `param.liquid_components` (relaxation toward `C*` for
species with a gas-phase counterpart, explicit feed+uptake integration
otherwise), working-volume update, heat balance, and assembly of the
environment snapshot.  Returns the updated state together with the
snapshot. -/
noncomputable def Bioreactor.step (p : Params) (br : Bioreactor)
    (actuation : Actuation) (cells : Cells) : Bioreactor × Env :=
  let br1 := br.check_and_update p actuation
  let cell_fraction := cells.total_cells * cells.volume / br1.working_volume
  let mole : String → ℝ := fun component =>
    if component ∈ p.liquid_components then
      if component.drop 1 ∈ p.gas_components then
        let C_star := br1.gas_percentages component * br1.pressure *
          solubility component br1.temperature
        let kLa := br1.kla * p.kla_ratio component
        let transfer_coeff := Real.exp (-(kLa * p.q_res))
        transfer_coeff * br1.mole component + (1 - transfer_coeff) *
          (C_star * br1.working_volume - cells.mass_transfer component / kLa)
      else
        br1.mole component +
          (actuation component + cells.mass_transfer component) * p.q_res
    else br1.mole component
  let working_volume := br1.working_volume + actuation "liquid_volume" * p.q_res
  let heat_transfer := actuation "heat" +
    (p.environment_temperature - br1.temperature) * br1.overall_heat_transfer_coeff
  let temperature := br1.temperature +
    heat_transfer * p.q_res / (working_volume * p.volumetric_heat_capacity)
  let br2 : Bioreactor :=
    { br1 with mole := mole, working_volume := working_volume, temperature := temperature }
  let osmo := br2.total_moles p / (working_volume * (1 - cell_fraction))
  let env : Env :=
    { shear := br2.mean_shear
      max_shear := br2.max_shear
      volume := working_volume
      mOsm := osmo
      pH := br2.pH_val p
      temperature := temperature
      time := br2.current_time
      conc := fun component =>
        if component ∈ p.liquid_components then mole component / working_volume else 0 }
  (br2, env)

/-- A run of the stepping engine: folds `step` over a sequence of
(actuation, cell-state) inputs, collecting the environment snapshot of
every step and the final reactor state. -/
noncomputable def Bioreactor.run (p : Params) (br : Bioreactor) :
    List (Actuation × Cells) → List Env × Bioreactor
  | [] => ([], br)
  | input :: rest =>
    let s := br.step p input.1 input.2
    let r := s.1.run p rest
    (s.2 :: r.1, r.2)

/-! Concrete test instances used by witnesses and counterexamples. -/

/-- Concrete parameter instance: the spec's example species (dissolved
O2/CO2 as the gas-exchanged pair, nutrient and ionic species), gases
air/O2/CO2, unit step resolution. -/
noncomputable def p0 : Params where
  liquid_components := ["dO2", "dCO2", "glucose", "Na", "Cl"]
  gas_components := ["air", "O2", "CO2"]
  kla_ratio := fun _ => 1
  q_res := 1
  viscosity := 0.001
  environment_temperature := 23
  volumetric_heat_capacity := 4.18
  positively_charged := ["Na"]
  negatively_charged := ["Cl"]

/-- Concrete rushton agitator (the source's default geometry). -/
noncomputable def ag0 : Agitator where
  type := "rushton"
  number := 1
  diameter := 0.06
  width := 0.02
  power_number := 5.5
  ungassed_power_coeff := 5.5 * 1000 * (0.06 : ℝ) ^ 5

/-- Concrete all-zero actuation command. -/
noncomputable def act0 : Actuation := fun _ => 0

/-- Concrete inert cell state. -/
noncomputable def cells0 : Cells where
  total_cells := 0
  volume := 0
  mass_transfer := fun _ => 0

/-- Concrete reactor state with empty inventory and unit working
volume. -/
noncomputable def br0 : Bioreactor where
  volume := 3
  working_volume := 1
  agitator := ag0
  CSA := Real.pi * (0.13 : ℝ) ^ 2 / 4
  diameter := 0.13
  current_time := 0
  old := none
  pressure := 1
  mole := fun _ => 0
  temperature := 36
  overall_heat_transfer_coeff := 1
  kla := 1
  gas_percentages := fun _ => 0
  mean_shear := 0
  max_shear := 0

/-! Helper lemmas about `check_and_update` and `step` shared by the
claim theorems. -/

theorem check_and_update_mole (p : Params) (br : Bioreactor) (actuation : Actuation) :
    (br.check_and_update p actuation).mole = br.mole := by
  unfold Bioreactor.check_and_update Bioreactor.update_shear
  dsimp only
  split <;> rfl

theorem check_and_update_working_volume (p : Params) (br : Bioreactor)
    (actuation : Actuation) :
    (br.check_and_update p actuation).working_volume = br.working_volume := by
  unfold Bioreactor.check_and_update Bioreactor.update_shear
  dsimp only
  split <;> rfl

theorem check_and_update_pressure (p : Params) (br : Bioreactor) (actuation : Actuation) :
    (br.check_and_update p actuation).pressure = br.pressure := by
  unfold Bioreactor.check_and_update Bioreactor.update_shear
  dsimp only
  split <;> rfl

theorem check_and_update_temperature (p : Params) (br : Bioreactor) (actuation : Actuation) :
    (br.check_and_update p actuation).temperature = br.temperature := by
  unfold Bioreactor.check_and_update Bioreactor.update_shear
  dsimp only
  split <;> rfl

theorem check_and_update_current_time (p : Params) (br : Bioreactor) (actuation : Actuation) :
    (br.check_and_update p actuation).current_time = br.current_time + p.q_res := by
  unfold Bioreactor.check_and_update Bioreactor.update_shear
  dsimp only
  split <;> rfl

/-- Characterization of the molar inventory after a step, read off the
body of `Bioreactor.step`. -/
theorem step_fst_mole (p : Params) (br : Bioreactor) (actuation : Actuation)
    (cells : Cells) :
    ((br.step p actuation cells).1).mole = fun component =>
      let br1 := br.check_and_update p actuation
      if component ∈ p.liquid_components then
        if component.drop 1 ∈ p.gas_components then
          let C_star := br1.gas_percentages component * br1.pressure *
            solubility component br1.temperature
          let kLa := br1.kla * p.kla_ratio component
          let transfer_coeff := Real.exp (-(kLa * p.q_res))
          transfer_coeff * br1.mole component + (1 - transfer_coeff) *
            (C_star * br1.working_volume - cells.mass_transfer component / kLa)
        else
          br1.mole component +
            (actuation component + cells.mass_transfer component) * p.q_res
      else br1.mole component := rfl

theorem step_fst_current_time (p : Params) (br : Bioreactor) (actuation : Actuation)
    (cells : Cells) :
    ((br.step p actuation cells).1).current_time =
      (br.check_and_update p actuation).current_time := rfl

/-- C6: agitator construction sets power_number 5.5 for impeller type
rushton and 2.2 for marine, and any other impeller type yields the
configuration error, so no agitator is produced. -/
theorem agitator_make_spec (number diameter width : ℝ) :
    (∃ a, Agitator.make "rushton" number diameter width = Except.ok a ∧
      a.power_number = 5.5 ∧ a.type = "rushton") ∧
    (∃ a, Agitator.make "marine" number diameter width = Except.ok a ∧
      a.power_number = 2.2 ∧ a.type = "marine") ∧
    (∀ t : String, t ≠ "rushton" → t ≠ "marine" →
      Agitator.make t number diameter width =
        Except.error "impeller not recognized!") := by
  refine ⟨⟨_, rfl, rfl, rfl⟩, ⟨_, rfl, rfl, rfl⟩, fun t h1 h2 => ?_⟩
  simp [Agitator.make, h1, h2, Except.map]

/-- Witness for C6 at the concrete impeller type "helical". -/
theorem agitator_make_spec_witness :
    Agitator.make "helical" 1 0.06 0.02 = Except.error "impeller not recognized!" :=
  (agitator_make_spec 1 0.06 0.02).2.2 "helical" (by decide) (by decide)

/-- C7: a non-exchanged species (no gas-phase counterpart) whose
actuation feed rate and cell mass-transfer rate are both zero has its
molar inventory unchanged by a step. -/
theorem step_non_exchanged_conserved (p : Params) (br : Bioreactor)
    (actuation : Actuation) (cells : Cells) (component : String)
    (hg : component.drop 1 ∉ p.gas_components)
    (hf : actuation component = 0) (hm : cells.mass_transfer component = 0) :
    ((br.step p actuation cells).1).mole component = br.mole component := by
  rw [congrFun (step_fst_mole p br actuation cells) component]
  dsimp only
  rw [if_neg hg, hf, hm, check_and_update_mole]
  split <;> ring

/-- Witness for C7 at the concrete species glucose with the all-zero
actuation and inert cells. -/
theorem step_non_exchanged_conserved_witness :
    ((br0.step p0 act0 cells0).1).mole "glucose" = br0.mole "glucose" :=
  step_non_exchanged_conserved p0 br0 act0 cells0 "glucose" (by decide) rfl rfl

/-- C8: every step advances current_time by exactly the fixed step
resolution, and therefore time strictly increases across steps whenever
the resolution is positive. -/
theorem step_advances_time (p : Params) (br : Bioreactor) (actuation : Actuation)
    (cells : Cells) :
    ((br.step p actuation cells).1).current_time = br.current_time + p.q_res ∧
    (0 < p.q_res →
      br.current_time < ((br.step p actuation cells).1).current_time) := by
  have h : ((br.step p actuation cells).1).current_time = br.current_time + p.q_res := by
    rw [step_fst_current_time, check_and_update_current_time]
  exact ⟨h, fun hq => by rw [h]; linarith⟩

/-- Witness for C8 at the concrete instance, discharging the positive
resolution hypothesis. -/
theorem step_advances_time_witness :
    br0.current_time < ((br0.step p0 act0 cells0).1).current_time :=
  (step_advances_time p0 br0 act0 cells0).2 (by norm_num [p0])

/-- C1: for every gas-exchanged species (a liquid component whose name
minus its leading d is a gas component), one step updates its moles by
the relaxation rule
moles' = exp(-kLa_i Δt) moles + (1 - exp(-kLa_i Δt)) (C* V - uptake_i/kLa_i),
where kLa_i is the cached kLa times the species-specific ratio and C* is
the cached gas fraction times total pressure times the
temperature-linear solubility, uptake_i being the cell state's
mass-transfer entry. -/
theorem step_gas_exchanged_relaxation (p : Params) (br : Bioreactor)
    (actuation : Actuation) (cells : Cells) (component : String)
    (hl : component ∈ p.liquid_components)
    (hg : component.drop 1 ∈ p.gas_components) :
    ((br.step p actuation cells).1).mole component =
      Real.exp (-((br.check_and_update p actuation).kla * p.kla_ratio component * p.q_res)) *
          br.mole component +
        (1 - Real.exp
            (-((br.check_and_update p actuation).kla * p.kla_ratio component * p.q_res))) *
          ((br.check_and_update p actuation).gas_percentages component * br.pressure *
              solubility component br.temperature * br.working_volume -
            cells.mass_transfer component /
              ((br.check_and_update p actuation).kla * p.kla_ratio component)) := by
  rw [congrFun (step_fst_mole p br actuation cells) component]
  dsimp only
  rw [if_pos hl, if_pos hg, check_and_update_mole, check_and_update_pressure,
    check_and_update_temperature, check_and_update_working_volume]

/-- Witness for C1 at the species dO2 in the concrete instance. -/
theorem step_gas_exchanged_relaxation_witness :
    ((br0.step p0 act0 cells0).1).mole "dO2" =
      Real.exp (-((br0.check_and_update p0 act0).kla * p0.kla_ratio "dO2" * p0.q_res)) *
          br0.mole "dO2" +
        (1 - Real.exp
            (-((br0.check_and_update p0 act0).kla * p0.kla_ratio "dO2" * p0.q_res))) *
          ((br0.check_and_update p0 act0).gas_percentages "dO2" * br0.pressure *
              solubility "dO2" br0.temperature * br0.working_volume -
            cells0.mass_transfer "dO2" /
              ((br0.check_and_update p0 act0).kla * p0.kla_ratio "dO2")) :=
  step_gas_exchanged_relaxation p0 br0 act0 cells0 "dO2" (by decide) (by decide)

/-- C2: the kLa closure computes its shape constants from the diameter
ratio r as A = 5.3 exp(-5.4 r), B = 0.47 r^1.3, C = 0.64 - 1.1 r, and
for every (rotational speed, gas flow, working volume) returns
1080 ((lower gassed power + upper gassed power)/working volume)^0.39
times (gas flow / cross section)^0.79 (the source labels the result
1/min). -/
theorem kla_func_formula (p : Params) (br : Bioreactor)
    (RPS gas_flow working_volume : ℝ) :
    br.kla_func p RPS gas_flow working_volume =
      1080 *
        ((br.agitator.ungassed_power RPS *
            (1 - (0.47 * (br.agitator.diameter / br.diameter) ^ (1.3 : ℝ) -
                5.3 * Real.exp (-5.4 * (br.agitator.diameter / br.diameter)) *
                  p.viscosity) *
              (br.agitator.diameter / 9.81 * RPS ^ 2) ^ (0.25 : ℝ) *
              Real.tanh ((0.64 - 1.1 * (br.agitator.diameter / br.diameter)) *
                (gas_flow / (RPS * br.agitator.diameter ^ 3)))) +
          (br.agitator.number - 1) * br.agitator.ungassed_power RPS *
            (1 - (5.3 * Real.exp (-5.4 * (br.agitator.diameter / br.diameter)) +
                0.47 * (br.agitator.diameter / br.diameter) ^ (1.3 : ℝ) *
                  (br.agitator.diameter / 9.81 * RPS ^ 2)) *
              (gas_flow / (RPS * br.agitator.diameter ^ 3)) ^
                (0.64 - 1.1 * (br.agitator.diameter / br.diameter) +
                  0.04 * (br.agitator.diameter / 9.81 * RPS ^ 2)))) /
          working_volume) ^ (0.39 : ℝ) *
        (gas_flow / (Real.pi * br.diameter ^ 2 / 4)) ^ (0.79 : ℝ) := rfl

/-- Helper: when the actuation differs from the stored one or has a
nonzero liquid feed, `check_and_update` stores the freshly computed kLa
coefficient. -/
theorem check_and_update_kla_of_not (p : Params) (br : Bioreactor)
    (actuation : Actuation)
    (h : ¬(br.old = some actuation ∧ actuation "liquid_volume" = 0)) :
    (br.check_and_update p actuation).kla =
      br.kla_func p (actuation "RPS") (actuation "gas_volume") br.working_volume := by
  unfold Bioreactor.check_and_update Bioreactor.update_shear
  dsimp only
  split
  · exact absurd ‹_› h
  · rfl

open scoped Classical in
/-- C3 amended: the cached kLa, gas-phase fractions, and shear values
are reused exactly when the actuation equals the previously applied one
AND its liquid feed is zero; in every other case (a changed command OR a
nonzero liquid feed) all three are recomputed. -/
theorem check_and_update_cache_policy (p : Params) (br : Bioreactor)
    (actuation : Actuation) :
    ((br.check_and_update p actuation).kla,
     (br.check_and_update p actuation).gas_percentages,
     (br.check_and_update p actuation).mean_shear,
     (br.check_and_update p actuation).max_shear) =
    if br.old = some actuation ∧ actuation "liquid_volume" = 0 then
      (br.kla, br.gas_percentages, br.mean_shear, br.max_shear)
    else
      (br.kla_func p (actuation "RPS") (actuation "gas_volume") br.working_volume,
       calc_gas_percentages p actuation,
       4.2 * actuation "RPS" * (br.agitator.diameter / br.diameter) ^ (0.3 : ℝ) *
         br.agitator.diameter / br.agitator.width,
       4.2 * actuation "RPS" * (br.agitator.diameter / br.diameter) ^ (0.3 : ℝ) *
         br.agitator.diameter / br.agitator.width / 4.2 * 9.7) := by
  unfold Bioreactor.check_and_update Bioreactor.update_shear
  dsimp only
  split <;> rfl

/-- Actuation for the C3 counterexample: identical to the stored one,
nonzero liquid feed, zero gas flow. -/
noncomputable def act3 : Actuation := fun k =>
  if k = "liquid_volume" then 5 else if k = "RPS" then 1 else 0

/-- Reactor state for the C3 counterexample: its stored actuation is
`act3` and its cached kLa is 1. -/
noncomputable def br3 : Bioreactor := { br0 with old := some act3, kla := 1 }

/-- C3 counterexample: the actuation equals the stored one while the
liquid feed is nonzero, so the claim's recompute condition (differs AND
nonzero feed) is false and the claim predicts untouched caches — yet the
code recomputes, and the cached kLa changes from 1 to 0 (zero gas flow
makes the correlation vanish). -/
theorem check_and_update_cache_counterexample :
    ¬(some act3 ≠ br3.old ∧ act3 "liquid_volume" ≠ 0) ∧
    (br3.check_and_update p0 act3).kla ≠ br3.kla := by
  have hfeed : act3 "liquid_volume" = 5 := rfl
  have hcond : ¬(br3.old = some act3 ∧ act3 "liquid_volume" = 0) := by
    rintro ⟨-, h⟩
    rw [hfeed] at h
    norm_num at h
  constructor
  · rintro ⟨h, -⟩
    exact h rfl
  · rw [check_and_update_kla_of_not p0 br3 act3 hcond]
    have hgas : act3 "gas_volume" = 0 := rfl
    have hexp : (0 : ℝ) ^ (0.79 : ℝ) = 0 := Real.zero_rpow (by norm_num)
    have hz : br3.kla_func p0 (act3 "RPS") (act3 "gas_volume") br3.working_volume = 0 := by
      simp only [Bioreactor.kla_func, hgas, zero_div, hexp, mul_zero]
    rw [hz]
    have : br3.kla = 1 := rfl
    rw [this]
    norm_num

/-- C9: the stepping engine is deterministic — identical initial states
fed identical actuation and cell-state sequences produce identical
environment snapshots at every step and identical final reactor
states. -/
theorem run_deterministic (p : Params) (brA brB : Bioreactor)
    (inputsA inputsB : List (Actuation × Cells))
    (hbr : brA = brB) (hin : inputsA = inputsB) :
    brA.run p inputsA = brB.run p inputsB := by
  subst hbr
  subst hin
  rfl

/-- Witness for C9: two one-step runs from the concrete state and input
sequence coincide. -/
theorem run_deterministic_witness :
    br0.run p0 [(act0, cells0)] = br0.run p0 [(act0, cells0)] :=
  run_deterministic p0 br0 br0 [(act0, cells0)] [(act0, cells0)] rfl rfl

/-- C4: with zero net ionic charge concentration and zero dCO2 molar
inventory (positive working volume), the pH solver returns exactly 7. -/
theorem pH_pure_water (p : Params) (br : Bioreactor)
    (hn : netCharge p br = 0) (hc : br.mole "dCO2" = 0)
    (_hv : 0 < br.working_volume) :
    br.pH_val p = 7 := by
  have hs : Real.sqrt ((10 : ℝ) ^ (-14 : ℤ)) = (10 : ℝ) ^ (-7 : ℤ) := by
    rw [show ((10 : ℝ) ^ (-14 : ℤ)) = ((10 : ℝ) ^ (-7 : ℤ)) ^ 2 by
      rw [← zpow_natCast ((10 : ℝ) ^ (-7 : ℤ)) 2, ← zpow_mul]; norm_num]
    exact Real.sqrt_sq (by positivity)
  unfold Bioreactor.pH_val pH_log_arg pH_sqrt_arg
  rw [hn, hc]
  have e1 : ((0 : ℝ) / 2) ^ 2 = 0 := by norm_num
  have e2 : (10 : ℝ) ^ (-6.36 : ℝ) * 1.0017 * 0 / br.working_volume = 0 := by
    rw [mul_zero, zero_div]
  rw [e1, e2, zero_add, add_zero, hs, neg_zero, zero_div, zero_add,
    show ((10 : ℝ) ^ (-7 : ℤ)) = (10 : ℝ) ^ ((-7 : ℤ) : ℝ) from
      (Real.rpow_intCast 10 (-7)).symm,
    Real.logb_rpow (by norm_num) (by norm_num)]
  norm_num

/-- Witness for C4 at the concrete state with empty inventory and unit
working volume. -/
theorem pH_pure_water_witness : br0.pH_val p0 = 7 := by
  have hz : ∀ l : List String,
      (l.map (fun s => br0.mole s / br0.working_volume)).sum = 0 := by
    intro l
    induction l with
    | nil => simp
    | cons a t ih => simp [ih, br0]
  refine pH_pure_water p0 br0 ?_ rfl (by norm_num [br0])
  unfold netCharge
  rw [hz, hz, sub_zero]

/-- C10: with positive working volume and nonnegative dCO2 inventory,
the pH computation reaches no domain error: the square-root argument is
at least 10^-14 and the log10 argument is strictly positive, so the pH
value is well-defined with no guard needed. -/
theorem pH_domain_safe (p : Params) (br : Bioreactor)
    (hv : 0 < br.working_volume) (hc : 0 ≤ br.mole "dCO2") :
    (10 : ℝ) ^ (-14 : ℤ) ≤ pH_sqrt_arg p br ∧ 0 < pH_log_arg p br := by
  have ht : 0 ≤ (10 : ℝ) ^ (-6.36 : ℝ) * 1.0017 * br.mole "dCO2" / br.working_volume := by
    apply div_nonneg _ hv.le
    have h10 : (0 : ℝ) < (10 : ℝ) ^ (-6.36 : ℝ) := Real.rpow_pos_of_pos (by norm_num) _
    nlinarith
  have hsq : (netCharge p br / 2) ^ 2 < pH_sqrt_arg p br := by
    unfold pH_sqrt_arg
    have h14 : (0 : ℝ) < (10 : ℝ) ^ (-14 : ℤ) := by positivity
    linarith
  constructor
  · unfold pH_sqrt_arg
    have := sq_nonneg (netCharge p br / 2)
    linarith
  · have h2 : |netCharge p br / 2| < Real.sqrt (pH_sqrt_arg p br) := by
      rw [← Real.sqrt_sq_eq_abs]
      exact Real.sqrt_lt_sqrt (sq_nonneg _) hsq
    have h3 := le_abs_self (netCharge p br / 2)
    unfold pH_log_arg
    have h4 : -(netCharge p br) / 2 = -(netCharge p br / 2) := by ring
    rw [h4]
    linarith

/-- Witness for C10 at the concrete state. -/
theorem pH_domain_safe_witness :
    (10 : ℝ) ^ (-14 : ℤ) ≤ pH_sqrt_arg p0 br0 ∧ 0 < pH_log_arg p0 br0 :=
  pH_domain_safe p0 br0 (by norm_num [br0]) (by norm_num [br0])

/-- C5 evidence: under the all-zero actuation every gas-component flow
is zero and the summed total flow is zero, and the gas-percentage
computation — which has no guard in the source — performs the undefined
0/0 division; the explicit checked embedding reports the undefined case
(`none`) rather than any fractions. -/
theorem calc_gas_percentages_zero_flow :
    (p0.gas_components.map act0).sum = 0 ∧
    calc_gas_percentages_checked p0 act0 = none := by
  have h : (p0.gas_components.map act0).sum = 0 := by
    have hm : p0.gas_components.map act0 = [0, 0, 0] := rfl
    rw [hm]
    simp
  refine ⟨h, ?_⟩
  unfold calc_gas_percentages_checked
  dsimp only
  rw [if_pos h]

end CellCulture
